import Mathlib

set_option maxRecDepth 4000

/-! Shallow embedding of the front-end logic of the resource-portal
repository: the YouTube channel registration workflow
(`onSubmit` in YouTubeChannelForm) and the login session bootstrap
(`checkSession` in the Login page).  External collaborators (the record
store, the auth provider, the video-fetch job, the browser history) are
modelled by an environment record giving the outcome of each external
call; the workflow functions return the externally visible effects:
toasts issued, navigations issued, whether an insert was attempted and
with which URL, whether the fetch job was triggered, whether the form
was reset, whether the completion callback ran, and the loading flag. -/

/-- A toast notification: title, description, and whether the
destructive variant was used. -/
structure Toast where
  title : String
  description : String
  destructive : Bool
  deriving DecidableEq, Repr

/-- The toast shown when the channel already exists (both on the
pre-check hit and on the unique-violation insert error). -/
def channelExistsToast : Toast :=
  { title := "Channel already exists",
    description := "This YouTube channel has already been added to your sources.",
    destructive := true }

/-- The toast shown after a successful insert. -/
def channelAddedToast : Toast :=
  { title := "Channel added successfully",
    description := "The YouTube channel has been added to your sources.",
    destructive := false }

/-- The generic failure toast issued by the catch block. -/
def errorAddingToast : Toast :=
  { title := "Error adding channel",
    description := "There was a problem adding the YouTube channel.",
    destructive := true }

/-- An error returned by the record store; carries the classifiable
code (42501 permission denied, 23505 unique violation, other). -/
structure SbError where
  code : String
  deriving DecidableEq, Repr

/-- Outcome of the pre-check query `select id from content_sources
where type = youtube and source_id = channelId` (maybeSingle). -/
inductive CheckOutcome where
  | err
  | found
  | notFound
  deriving DecidableEq, Repr

/-- The validated form values: a display name and a channel id, both
non-empty by the zod schema. -/
structure FormValues where
  name : String
  channelId : String
  deriving DecidableEq, Repr

/-- Outcomes of the external calls made by one registration
submission, plus whether an `onSuccess` callback was supplied. -/
structure SubmitEnv where
  checkOutcome : CheckOutcome
  insertError : Option SbError
  fetchOk : Bool
  hasOnSuccess : Bool
  deriving DecidableEq, Repr

/-- Externally visible effects of one registration submission. -/
structure SubmitResult where
  toasts : List Toast
  navigations : List String
  insertAttempted : Bool
  insertedUrl : Option String
  fetchTriggered : Bool
  formReset : Bool
  onSuccessCalled : Bool
  loadingSetAtStart : Bool
  loadingAtEnd : Bool
  deriving DecidableEq, Repr

/-- The state after `setIsLoading(true)`, before any external call:
no effects yet, loading flag raised. -/
def baseResult : SubmitResult :=
  { toasts := [], navigations := [], insertAttempted := false, insertedUrl := none,
    fetchTriggered := false, formReset := false, onSuccessCalled := false,
    loadingSetAtStart := true, loadingAtEnd := true }

/-- JavaScript `channelId.startsWith('@')`: the first character is `@`
(false on the empty string). -/
def atPrefixed (s : String) : Bool :=
  match s.toList with
  | [] => false
  | c :: _ => c == '@'

/-- The fixed base of every derived URL. -/
def ytBase : String := "https://www.youtube.com/"

/-- The derived `source_url` of the insert payload, from the template
literal in `onSubmit`: `@`-prefixed ids appended directly, others
under a `channel/` path segment. -/
def sourceUrl (channelId : String) : String :=
  ytBase ++ (if atPrefixed channelId then channelId else "channel/" ++ channelId)

/-- Result of the try block together with whether it threw (a thrown
error is handled by the catch block of `onSubmit`). -/
structure TryOutcome where
  res : SubmitResult
  threw : Bool
  deriving DecidableEq, Repr

/-- The try block of `onSubmit`: pre-check, duplicate short-circuit,
insert with error-code branches, success toast, awaited video fetch,
form reset and optional callback.  A `threw := true` outcome is one
that reaches the catch block. -/
def onSubmitTry (values : FormValues) (env : SubmitEnv) : TryOutcome :=
  match env.checkOutcome with
  | CheckOutcome.err => ⟨baseResult, true⟩
  | CheckOutcome.found =>
      ⟨{ baseResult with toasts := [channelExistsToast] }, false⟩
  | CheckOutcome.notFound =>
      let afterAttempt :=
        { baseResult with insertAttempted := true,
                          insertedUrl := some (sourceUrl values.channelId) }
      match env.insertError with
      | some e =>
          if e.code = "42501" then
            ⟨{ afterAttempt with navigations := ["/login"] }, false⟩
          else if e.code = "23505" then
            ⟨{ afterAttempt with toasts := [channelExistsToast] }, false⟩
          else
            ⟨afterAttempt, true⟩
      | none =>
          let afterToast :=
            { afterAttempt with toasts := [channelAddedToast], fetchTriggered := true }
          if env.fetchOk then
            ⟨{ afterToast with formReset := true,
                               onSuccessCalled := env.hasOnSuccess }, false⟩
          else
            ⟨afterToast, true⟩

/-- The whole `onSubmit` handler: try block, catch block appending the
generic failure toast when the try threw, and the finally clause
clearing the loading flag. -/
def onSubmit (values : FormValues) (env : SubmitEnv) : SubmitResult :=
  let t := onSubmitTry values env
  let r :=
    if t.threw then { t.res with toasts := t.res.toasts ++ [errorAddingToast] }
    else t.res
  { r with loadingAtEnd := false }

/-- Boolean test that `pat` begins the list `l`, character by
character. -/
def begins : List Char → List Char → Bool
  | [], _ => true
  | _ :: _, [] => false
  | a :: as, b :: bs => a == b && begins as bs

/-- Boolean substring search: `pat` occurs somewhere in the list. -/
def hasSub (pat : List Char) : List Char → Bool
  | [] => begins pat []
  | c :: t => begins pat (c :: t) || hasSub pat t

/-- The characters of the `channel/` path segment. -/
def channelSeg : List Char := ['c', 'h', 'a', 'n', 'n', 'e', 'l', '/']

/-- The derived URL contains the substring `channel/`. -/
def containsChannelSeg (s : String) : Bool := hasSub channelSeg s.toList

/-- An error from the auth provider; carries a message shown in the
failure toast. -/
structure AuthError where
  message : String
  deriving DecidableEq, Repr

/-- Outcome of the initial `getSession` call. -/
inductive SessionOutcome where
  | err
  | present
  | absent
  deriving DecidableEq, Repr

/-- Outcomes of the external calls made by one run of the login
bootstrap: session query, fixed-credential sign-in, sign-up, retry
sign-in, and whether `navigate(-1)` throws for lack of history. -/
structure LoginEnv where
  sessionOutcome : SessionOutcome
  signInError : Option AuthError
  signUpError : Option AuthError
  retryError : Option AuthError
  backFails : Bool
  deriving DecidableEq, Repr

/-- A navigation issued by the bootstrap: one step back in history, or
to an absolute route. -/
inductive Nav where
  | back
  | route (r : String)
  deriving DecidableEq, Repr

/-- Externally visible effects of one run of the login bootstrap. -/
structure LoginResult where
  toasts : List Toast
  navigations : List Nav
  deriving DecidableEq, Repr

/-- The toast shown when the session query itself fails. -/
def sessionErrorToast : Toast :=
  { title := "Error checking session", description := "Please try again later",
    destructive := true }

/-- The toast shown when sign-up fails, carrying the auth message. -/
def signUpErrorToast (m : String) : Toast :=
  { title := "Error signing up", description := m, destructive := true }

/-- The toast shown when the retry sign-in fails, carrying the auth
message. -/
def signInErrorToast (m : String) : Toast :=
  { title := "Error signing in", description := m, destructive := true }

/-- `try { navigate(-1) } catch { navigate to the admin route }`: go
back, or to the admin route when going back fails. -/
def navigateBackOrAdmin (backFails : Bool) : List Nav :=
  if backFails then [Nav.route "/admin"] else [Nav.back]

/-- The `checkSession` bootstrap of the Login page: query the session;
on error toast and stop; with a session navigate back or to the admin
route; otherwise sign in with the fixed credentials, falling back to
sign-up and a single retry sign-in, toasting and stopping on sign-up
or retry failure, and navigating back (or to the admin route) on any
successful sign-in. -/
def checkSession (env : LoginEnv) : LoginResult :=
  match env.sessionOutcome with
  | SessionOutcome.err => ⟨[sessionErrorToast], []⟩
  | SessionOutcome.present => ⟨[], navigateBackOrAdmin env.backFails⟩
  | SessionOutcome.absent =>
      match env.signInError with
      | none => ⟨[], navigateBackOrAdmin env.backFails⟩
      | some _ =>
          match env.signUpError with
          | some e => ⟨[signUpErrorToast e.message], []⟩
          | none =>
              match env.retryError with
              | some e => ⟨[signInErrorToast e.message], []⟩
              | none => ⟨[], navigateBackOrAdmin env.backFails⟩

/-- Concrete environment whose pre-check finds an existing record. -/
def wEnvFound : SubmitEnv :=
  { checkOutcome := CheckOutcome.found, insertError := none,
    fetchOk := true, hasOnSuccess := false }

/-- Concrete form values used by witnesses. -/
def wValues : FormValues := { name := "CMFI", channelId := "UC123" }

/-- Concrete environment whose insert fails with the unique-violation
code. -/
def wEnvUnique : SubmitEnv :=
  { checkOutcome := CheckOutcome.notFound, insertError := some { code := "23505" },
    fetchOk := true, hasOnSuccess := false }

/-- Concrete environment whose insert fails with the permission-denied
code. -/
def wEnvPerm : SubmitEnv :=
  { checkOutcome := CheckOutcome.notFound, insertError := some { code := "42501" },
    fetchOk := true, hasOnSuccess := true }

/-- Concrete environment with a successful insert, a failing fetch and
a supplied callback. -/
def cexEnvFetch : SubmitEnv :=
  { checkOutcome := CheckOutcome.notFound, insertError := none,
    fetchOk := false, hasOnSuccess := true }

/-- Concrete environment with a successful insert and a successful
fetch. -/
def wEnvSuccess : SubmitEnv :=
  { checkOutcome := CheckOutcome.notFound, insertError := none,
    fetchOk := true, hasOnSuccess := true }

/-- Concrete bootstrap environment: no session, sign-in and sign-up
both fail. -/
def wLoginFail : LoginEnv :=
  { sessionOutcome := SessionOutcome.absent,
    signInError := some { message := "Invalid login credentials" },
    signUpError := some { message := "Signups not allowed" },
    retryError := none, backFails := false }

/-- Concrete bootstrap environment: no session, sign-in fails, sign-up
and retry sign-in succeed. -/
def wLoginRetry : LoginEnv :=
  { sessionOutcome := SessionOutcome.absent,
    signInError := some { message := "Invalid login credentials" },
    signUpError := none, retryError := none, backFails := false }

theorem channelSeg_toList : ("channel/" : String).toList = channelSeg := rfl

theorem ytBase_toList :
    ytBase.toList =
      ['h', 't', 't', 'p', 's', ':', '/', '/', 'w', 'w', 'w', '.',
       'y', 'o', 'u', 't', 'u', 'b', 'e', '.', 'c', 'o', 'm', '/'] := rfl

theorem toList_append (s t : String) : (s ++ t).toList = s.toList ++ t.toList := rfl

/-- No occurrence of `channel/` starts inside the fixed URL base, so
prepending the base does not change the substring test. -/
theorem hasSub_ytBase (l : List Char) :
    hasSub channelSeg (ytBase.toList ++ l) = hasSub channelSeg l := by
  rw [ytBase_toList]
  simp [hasSub, begins, channelSeg]

/-- A list that starts with `channel/` passes the substring test. -/
theorem hasSub_channelSeg_append (l : List Char) :
    hasSub channelSeg (channelSeg ++ l) = true := by
  simp [hasSub, begins, channelSeg]

/-- C1: a pre-check hit yields the already-exists toast and no insert
is attempted. -/
theorem registration_duplicate_precheck (v : FormValues) (env : SubmitEnv)
    (h : env.checkOutcome = CheckOutcome.found) :
    (onSubmit v env).toasts = [channelExistsToast] ∧
    (onSubmit v env).insertAttempted = false := by
  simp [onSubmit, onSubmitTry, h, baseResult]

/-- Witness for C1 at a concrete submission. -/
theorem registration_duplicate_precheck_w :
    (onSubmit wValues wEnvFound).toasts = [channelExistsToast] ∧
    (onSubmit wValues wEnvFound).insertAttempted = false :=
  registration_duplicate_precheck wValues wEnvFound rfl

/-- C2 counterexample: the id `@x/channel/y` starts with `@`, yet its
derived URL does contain the substring `channel/`, so the claimed
biconditional fails at this input. -/
theorem sourceUrl_channelSeg_iff_cex :
    ¬ (containsChannelSeg (sourceUrl "@x/channel/y") = true ↔
       atPrefixed "@x/channel/y" = false) := by
  decide

/-- C2 amended: for every channel id that does not itself contain the
substring `channel/`, the derived URL contains `channel/` exactly when
the id is not `@`-prefixed; unconditionally, `@`-prefixed ids are
appended directly to the base and other ids are appended under the
`channel/` segment. -/
theorem sourceUrl_channelSeg_iff (id : String) :
    (atPrefixed id = true → sourceUrl id = ytBase ++ id) ∧
    (atPrefixed id = false → sourceUrl id = ytBase ++ ("channel/" ++ id)) ∧
    (hasSub channelSeg id.toList = false →
      (containsChannelSeg (sourceUrl id) = true ↔ atPrefixed id = false)) := by
  refine ⟨fun hp => by simp [sourceUrl, hp],
          fun hp => by simp [sourceUrl, hp],
          fun h => ?_⟩
  by_cases hp : atPrefixed id = true
  · have hurl : sourceUrl id = ytBase ++ id := by simp [sourceUrl, hp]
    simp only [containsChannelSeg, hurl, toList_append, hasSub_ytBase, h, hp]
    simp
  · have hp' : atPrefixed id = false := by simpa using hp
    have hurl : sourceUrl id = ytBase ++ ("channel/" ++ id) := by simp [sourceUrl, hp']
    simp only [containsChannelSeg, hurl, toList_append, channelSeg_toList,
               hasSub_ytBase, hasSub_channelSeg_append, hp']

/-- Witness for the amended C2 at concrete ids, discharging each
hypothesis. -/
theorem sourceUrl_channelSeg_iff_w :
    sourceUrl "@handle" = ytBase ++ "@handle" ∧
    sourceUrl "UC123" = ytBase ++ ("channel/" ++ "UC123") ∧
    (containsChannelSeg (sourceUrl "UC123") = true ↔
       atPrefixed "UC123" = false) :=
  ⟨(sourceUrl_channelSeg_iff "@handle").1 (by decide),
   (sourceUrl_channelSeg_iff "UC123").2.1 (by decide),
   (sourceUrl_channelSeg_iff "UC123").2.2 (by decide)⟩

/-- C3 counterexample: the insert succeeds and a callback is supplied,
yet because the awaited fetch fails the form is not reset and the
callback is not invoked, contradicting the claim at this input. -/
theorem fetch_awaited_cex :
    (onSubmit wValues cexEnvFetch).insertAttempted = true ∧
    cexEnvFetch.insertError = none ∧
    cexEnvFetch.hasOnSuccess = true ∧
    ¬ ((onSubmit wValues cexEnvFetch).formReset = true ∧
       (onSubmit wValues cexEnvFetch).onSuccessCalled = true) := by
  decide

/-- C3 amended: after a successful insert the success toast is shown
and the fetch job is triggered, but the job is awaited: the form is
reset and the callback invoked only when the fetch succeeds, and a
failing fetch additionally surfaces the generic failure toast. -/
theorem insert_success_fetch_awaited (v : FormValues) (env : SubmitEnv)
    (h1 : env.checkOutcome = CheckOutcome.notFound)
    (h2 : env.insertError = none) :
    (onSubmit v env).fetchTriggered = true ∧
    (onSubmit v env).formReset = env.fetchOk ∧
    (onSubmit v env).onSuccessCalled = (env.fetchOk && env.hasOnSuccess) ∧
    (onSubmit v env).toasts =
      (if env.fetchOk then [channelAddedToast]
       else [channelAddedToast, errorAddingToast]) := by
  cases hf : env.fetchOk <;>
    simp [onSubmit, onSubmitTry, h1, h2, hf, baseResult]

/-- Witness for the amended C3 at a concrete submission. -/
theorem insert_success_fetch_awaited_w :
    (onSubmit wValues wEnvSuccess).fetchTriggered = true ∧
    (onSubmit wValues wEnvSuccess).formReset = wEnvSuccess.fetchOk ∧
    (onSubmit wValues wEnvSuccess).onSuccessCalled =
      (wEnvSuccess.fetchOk && wEnvSuccess.hasOnSuccess) ∧
    (onSubmit wValues wEnvSuccess).toasts =
      (if wEnvSuccess.fetchOk then [channelAddedToast]
       else [channelAddedToast, errorAddingToast]) :=
  insert_success_fetch_awaited wValues wEnvSuccess rfl rfl

/-- C4: an insert failure with the unique-violation code 23505 yields
the already-exists toast and never the generic failure toast. -/
theorem unique_violation_duplicate (v : FormValues) (env : SubmitEnv) (e : SbError)
    (h1 : env.checkOutcome = CheckOutcome.notFound)
    (h2 : env.insertError = some e) (h3 : e.code = "23505") :
    (onSubmit v env).toasts = [channelExistsToast] ∧
    errorAddingToast ∉ (onSubmit v env).toasts := by
  constructor <;>
    simp [onSubmit, onSubmitTry, h1, h2, h3, baseResult,
          channelExistsToast, errorAddingToast]

/-- Witness for C4 at a concrete submission. -/
theorem unique_violation_duplicate_w :
    (onSubmit wValues wEnvUnique).toasts = [channelExistsToast] ∧
    errorAddingToast ∉ (onSubmit wValues wEnvUnique).toasts :=
  unique_violation_duplicate wValues wEnvUnique { code := "23505" } rfl rfl rfl

/-- C5: an insert failure with the permission-denied code 42501
redirects to the login route and attempts no further step of the
registration. -/
theorem permission_denied_redirect (v : FormValues) (env : SubmitEnv) (e : SbError)
    (h1 : env.checkOutcome = CheckOutcome.notFound)
    (h2 : env.insertError = some e) (h3 : e.code = "42501") :
    (onSubmit v env).navigations = ["/login"] ∧
    (onSubmit v env).fetchTriggered = false ∧
    (onSubmit v env).formReset = false ∧
    (onSubmit v env).onSuccessCalled = false := by
  simp [onSubmit, onSubmitTry, h1, h2, h3, baseResult]

/-- Witness for C5 at a concrete submission. -/
theorem permission_denied_redirect_w :
    (onSubmit wValues wEnvPerm).navigations = ["/login"] ∧
    (onSubmit wValues wEnvPerm).fetchTriggered = false ∧
    (onSubmit wValues wEnvPerm).formReset = false ∧
    (onSubmit wValues wEnvPerm).onSuccessCalled = false :=
  permission_denied_redirect wValues wEnvPerm { code := "42501" } rfl rfl rfl

/-- C6: with no session, failing sign-in and failing sign-up, the
bootstrap notifies the sign-up failure and issues no navigation. -/
theorem bootstrap_signup_failure_no_nav (env : LoginEnv) (e1 e2 : AuthError)
    (h1 : env.sessionOutcome = SessionOutcome.absent)
    (h2 : env.signInError = some e1) (h3 : env.signUpError = some e2) :
    (checkSession env).toasts = [signUpErrorToast e2.message] ∧
    (checkSession env).navigations = [] := by
  simp [checkSession, h1, h2, h3]

/-- Witness for C6 at a concrete bootstrap run. -/
theorem bootstrap_signup_failure_no_nav_w :
    (checkSession wLoginFail).toasts =
      [signUpErrorToast (AuthError.mk "Signups not allowed").message] ∧
    (checkSession wLoginFail).navigations = [] :=
  bootstrap_signup_failure_no_nav wLoginFail
    { message := "Invalid login credentials" }
    { message := "Signups not allowed" } rfl rfl rfl

/-- C7: with no session, failing sign-in, successful sign-up and
successful retry sign-in, the bootstrap issues no toast and navigates
back, or to the admin route when going back fails. -/
theorem bootstrap_retry_success_nav (env : LoginEnv) (e1 : AuthError)
    (h1 : env.sessionOutcome = SessionOutcome.absent)
    (h2 : env.signInError = some e1) (h3 : env.signUpError = none)
    (h4 : env.retryError = none) :
    (checkSession env).toasts = [] ∧
    (checkSession env).navigations =
      (if env.backFails then [Nav.route "/admin"] else [Nav.back]) := by
  simp [checkSession, navigateBackOrAdmin, h1, h2, h3, h4]

/-- Witness for C7 at a concrete bootstrap run. -/
theorem bootstrap_retry_success_nav_w :
    (checkSession wLoginRetry).toasts = [] ∧
    (checkSession wLoginRetry).navigations =
      (if wLoginRetry.backFails then [Nav.route "/admin"] else [Nav.back]) :=
  bootstrap_retry_success_nav wLoginRetry
    { message := "Invalid login credentials" } rfl rfl rfl rfl

/-- C8: every submission raises the loading flag at the start of the
try block, and the finally clause clears it on every terminal outcome. -/
theorem loading_flag_lifecycle (v : FormValues) (env : SubmitEnv) :
    (onSubmit v env).loadingSetAtStart = true ∧
    (onSubmit v env).loadingAtEnd = false := by
  cases env with
  | mk co ie f hs =>
      cases co with
      | err => simp [onSubmit, onSubmitTry, baseResult]
      | found => simp [onSubmit, onSubmitTry, baseResult]
      | notFound =>
          cases ie with
          | none => cases f <;> simp [onSubmit, onSubmitTry, baseResult]
          | some e =>
              by_cases h1 : e.code = "42501"
              · simp [onSubmit, onSubmitTry, baseResult, h1]
              · by_cases h2 : e.code = "23505" <;>
                  simp [onSubmit, onSubmitTry, baseResult, h1, h2]

/-- C9: the permission-denied branch issues no toast at all; the only
visible effect is the navigation to the login route. -/
theorem permission_denied_silent (v : FormValues) (env : SubmitEnv) (e : SbError)
    (h1 : env.checkOutcome = CheckOutcome.notFound)
    (h2 : env.insertError = some e) (h3 : e.code = "42501") :
    (onSubmit v env).toasts = [] ∧
    (onSubmit v env).navigations = ["/login"] := by
  simp [onSubmit, onSubmitTry, h1, h2, h3, baseResult]

/-- Witness for C9 at a concrete submission. -/
theorem permission_denied_silent_w :
    (onSubmit wValues wEnvPerm).toasts = [] ∧
    (onSubmit wValues wEnvPerm).navigations = ["/login"] :=
  permission_denied_silent wValues wEnvPerm { code := "42501" } rfl rfl rfl

/-- C10: the form is reset exactly on the full-success path: pre-check
clean, insert succeeded, fetch succeeded. -/
theorem form_reset_iff_success (v : FormValues) (env : SubmitEnv) :
    (onSubmit v env).formReset = true ↔
      (env.checkOutcome = CheckOutcome.notFound ∧
       env.insertError = none ∧ env.fetchOk = true) := by
  cases env with
  | mk co ie f hs =>
      cases co with
      | err => simp [onSubmit, onSubmitTry, baseResult]
      | found => simp [onSubmit, onSubmitTry, baseResult]
      | notFound =>
          cases ie with
          | none => cases f <;> simp [onSubmit, onSubmitTry, baseResult]
          | some e =>
              by_cases h1 : e.code = "42501"
              · simp [onSubmit, onSubmitTry, baseResult, h1]
              · by_cases h2 : e.code = "23505" <;>
                  simp [onSubmit, onSubmitTry, baseResult, h1, h2]
